import Mathlib

/-!
Shallow embedding of the two pure computation units of the backpacking
ecology app (`backpacking-ecology-app-fixed.py`): the gear recommendation
engine `generate_gear_recommendations` and the itinerary generator
`create_daily_itinerary`.  Numbers are modelled as rationals; Python's
`round(x, 1)` (round-half-to-even to one decimal) is modelled by
`pyRound1`.
-/

/-- Round-half-to-even of a rational to the nearest integer, as Python's
built-in `round` does on the exact value. -/
def roundHalfEven (x : ℚ) : ℤ :=
  let n := ⌊x⌋
  let frac := x - (n : ℚ)
  if frac < 1/2 then n
  else if 1/2 < frac then n + 1
  else if n % 2 = 0 then n else n + 1

/-- Python's `round(x, 1)`: round to one decimal place, ties to even. -/
def pyRound1 (x : ℚ) : ℚ := ((roundHalfEven (10 * x) : ℤ) : ℚ) / 10

/-- The parts of the Open-Meteo daily forecast that
`generate_gear_recommendations` reads: the lists found under
`daily.temperature_2m_min`, `daily.temperature_2m_max` and
`daily.precipitation_sum` (each possibly empty). -/
structure WeatherData where
  temperature_2m_min : List ℚ
  temperature_2m_max : List ℚ
  precipitation_sum : List ℚ
deriving DecidableEq, Repr

/-- `avg_min` of the temperature analysis (source lines 146-153): mean of
the first `trip_days` minimum temperatures, or the default 10 when the
weather data is absent or the list is empty. -/
def avgMinTemp (weather_data : Option WeatherData) (trip_days : ℕ) : ℚ :=
  match weather_data with
  | some w =>
      if w.temperature_2m_min = [] then 10
      else ((w.temperature_2m_min.take trip_days).sum) /
             (((w.temperature_2m_min.take trip_days).length : ℚ))
  | none => 10

/-- `avg_max` of the temperature analysis (source lines 146-153): mean of
the first `trip_days` maximum temperatures, default 20. -/
def avgMaxTemp (weather_data : Option WeatherData) (trip_days : ℕ) : ℚ :=
  match weather_data with
  | some w =>
      if w.temperature_2m_max = [] then 20
      else ((w.temperature_2m_max.take trip_days).sum) /
             (((w.temperature_2m_max.take trip_days).length : ℚ))
  | none => 20

/-- `total_precip` of the temperature analysis: sum of the first
`trip_days` precipitation values, default 0 when weather is absent. -/
def totalPrecip (weather_data : Option WeatherData) (trip_days : ℕ) : ℚ :=
  match weather_data with
  | some w => (w.precipitation_sum.take trip_days).sum
  | none => 0

/-- The fixed Essential list (source lines 156-163), with the backpack
item parameterised by `trip_days`. -/
def essentialItems (trip_days : ℕ) : List String :=
  ["Backpack (50-65L for " ++ toString trip_days ++ " days)",
   "First aid kit (wilderness rated)",
   "Multi-tool or knife",
   "Headlamp + spare batteries",
   "Emergency whistle",
   "Fire starter (waterproof matches/lighter)"]

/-- Cold-tier Shelter & Sleep items (source lines 167-171). -/
def coldShelterItems : List String :=
  ["4-season tent (MSR Access 2 or similar)",
   "Sleeping bag rated to -10°C (Western Mountaineering Alpinlite)",
   "Insulated sleeping pad (R-value 5+, Thermarest XTherm)"]

/-- Three-season-tier Shelter & Sleep items (source lines 174-178). -/
def threeSeasonShelterItems : List String :=
  ["3-season tent (Big Agnes Copper Spur HV UL2)",
   "Sleeping bag rated to 0°C (REI Magma 15)",
   "Sleeping pad (R-value 3-4, Nemo Tensor)"]

/-- Summer-tier Shelter & Sleep items (source lines 181-185). -/
def summerShelterItems : List String :=
  ["Ultralight tent or tarp (Zpacks Duplex)",
   "Summer quilt (20°C rating, Enlightened Equipment)",
   "Lightweight pad (R-value 2-3, Sea to Summit Ultralight)"]

/-- Cold-tier Clothing insulation item (source line 172). -/
def downJacketItem : String :=
  "Down jacket (800+ fill, Arc\x27teryx Cerium or similar)"

/-- Three-season-tier Clothing insulation item (source line 179). -/
def synthJacketItem : String :=
  "Synthetic insulated jacket (Patagonia Nano Puff)"

/-- The fixed 7-item Clothing base list (source lines 188-196); the rain
jacket wording depends on `total_precip`. -/
def clothingBaseItems (total_precip : ℚ) : List String :=
  ["Merino wool base layer (Smartwool 150)",
   "Hiking pants (convertible, Prana Stretch Zion)",
   "Moisture-wicking t-shirts (2-3)",
   "Rain jacket (Gore-Tex, " ++
     (if total_precip > 20 then "essential" else "recommended") ++ ")",
   "Fleece or soft-shell mid-layer",
   "Sun hat with brim",
   "Hiking socks (merino wool, 3-4 pairs, Darn Tough)"]

/-- Extra cold-weather clothing items added when `avg_min < 5` (source
lines 199-203). -/
def coldClothingItems : List String :=
  ["Insulated gloves (OR Versaliner)",
   "Warm hat (merino or fleece beanie)",
   "Long underwear (merino wool bottoms)"]

/-- Cooking & Hydration list (source lines 206-214); fuel canister count
is `ceil(trip_days / 3)`. -/
def cookingItems (trip_days : ℕ) : List String :=
  ["Lightweight stove (MSR PocketRocket or Jetboil)",
   "Fuel canisters (" ++ toString (⌈(trip_days : ℚ) / 3⌉ : ℤ) ++ " x 110g)",
   "Titanium pot (750ml minimum)",
   "Spork or lightweight utensils",
   "Water filtration (Sawyer Squeeze or Katadyn BeFree)",
   "Water bottles or hydration bladder (3L capacity)",
   "Water purification tablets (backup)"]

/-- Navigation & Safety list (source lines 217-224). -/
def navigationItems : List String :=
  ["Topographic maps (waterproof/laminated)",
   "Compass (Silva or Suunto)",
   "GPS device or smartphone with offline maps",
   "Emergency shelter (SOL bivy or space blanket)",
   "Paracord (15m minimum)",
   "Duct tape (wrapped on trekking poles)"]

/-- Wildlife Protection list used for spring, summer and fall (source
lines 228-233). -/
def wildlifeItems : List String :=
  ["Bear canister (BearVault BV500) or rope for hanging",
   "Bear spray (if in grizzly country)",
   "Insect repellent (DEET or Picaridin)",
   "Head net (if heavy bug season)"]

/-- `generate_gear_recommendations` (source lines 134-235), returned as
the ordered association list of the six category keys, in the insertion
order of the dict literal at lines 136-143. -/
def generate_gear_recommendations (weather_data : Option WeatherData)
    (season : String) (trip_days : ℕ) (terrain : String) :
    List (String × List String) :=
  let avg_min := avgMinTemp weather_data trip_days
  let total_precip := totalPrecip weather_data trip_days
  let shelter_sleep :=
    if avg_min < 0 then coldShelterItems
    else if avg_min < 10 then threeSeasonShelterItems
    else summerShelterItems
  let clothing :=
    (if avg_min < 0 then [downJacketItem]
     else if avg_min < 10 then [synthJacketItem]
     else []) ++
    clothingBaseItems total_precip ++
    (if avg_min < 5 then coldClothingItems else [])
  let wildlife :=
    if season = "spring" ∨ season = "summer" ∨ season = "fall" then
      wildlifeItems
    else []
  [("Essential", essentialItems trip_days),
   ("Clothing", clothing),
   ("Shelter & Sleep", shelter_sleep),
   ("Cooking & Hydration", cookingItems trip_days),
   ("Navigation & Safety", navigationItems),
   ("Wildlife Protection", wildlife)]

/-- Look up a category's item list in the returned mapping (dict access
in the Python callers). -/
def getCategory (gear : List (String × List String)) (category : String) :
    List String :=
  ((gear.find? (fun p => p.fst == category)).map Prod.snd).getD []

/-- One entry of the itinerary: the per-day dict built at source lines
243-256. -/
structure DayData where
  day : ℕ
  distance_km : ℚ
  estimated_hours : ℚ
  campsite : String
  water_sources : String
  notes : List String
deriving DecidableEq, Repr

/-- Python truthiness of the `waypoints` argument: falsy when `None` or
an empty list. -/
def truthyWaypoints : Option (List String) → Bool
  | none => false
  | some l => !l.isEmpty

/-- The day entry built in the loop body of `create_daily_itinerary`
(source lines 243-256), for a given average daily distance. -/
def dayEntry (avg_daily_distance : ℚ) (trip_days : ℕ)
    (waypoints : Option (List String)) (day : ℕ) : DayData :=
  { day := day
  , distance_km :=
      pyRound1 (avg_daily_distance +
        ((-1 : ℚ) ^ day * avg_daily_distance * (1/10)))
  , estimated_hours := pyRound1 (avg_daily_distance / (7/2))
  , campsite :=
      if truthyWaypoints waypoints then "Waypoint " ++ toString day
      else "Campsite " ++ toString day
  , water_sources :=
      if day % 2 = 0 then "Stream/Spring available" else "Carry water"
  , notes :=
      if day = 1 then ["Start early to beat crowds"]
      else if day = trip_days then ["Final day - arrange pickup/transport"]
      else [] }

/-- `create_daily_itinerary` (source lines 237-260): the loop
`for day in range(1, trip_days + 1)` collecting one `DayData` per day. -/
def create_daily_itinerary (total_distance : ℚ) (trip_days : ℕ)
    (trail_name : String) (waypoints : Option (List String)) :
    List DayData :=
  let avg_daily_distance := total_distance / (trip_days : ℚ)
  (List.range trip_days).map
    (fun i => dayEntry avg_daily_distance trip_days waypoints (i + 1))

/-- Weather sample whose average minimum over 3 days is -5 °C. -/
def coldWeatherExample : WeatherData :=
  ⟨[-5, -5, -5], [0, 0, 0], [0, 0, 0]⟩

/-- Helper: Python round-half-even is the identity on integers. -/
theorem roundHalfEven_intCast (k : ℤ) : roundHalfEven (k : ℚ) = k := by
  unfold roundHalfEven
  simp

/-- Helper: the Clothing category of the returned mapping, as built from
the insulation branch, the base list and the cold-weather extension. -/
theorem getCategory_clothing (w : Option WeatherData) (s : String) (d : ℕ)
    (t : String) :
    getCategory (generate_gear_recommendations w s d t) "Clothing" =
      (if avgMinTemp w d < 0 then [downJacketItem]
       else if avgMinTemp w d < 10 then [synthJacketItem]
       else []) ++ clothingBaseItems (totalPrecip w d) ++
      (if avgMinTemp w d < 5 then coldClothingItems else []) := rfl

/-- Helper: the Cooking & Hydration category of the returned mapping. -/
theorem getCategory_cooking (w : Option WeatherData) (s : String) (d : ℕ)
    (t : String) :
    getCategory (generate_gear_recommendations w s d t) "Cooking & Hydration"
      = cookingItems d := rfl

/-- Helper: the Wildlife Protection category of the returned mapping. -/
theorem getCategory_wildlife (w : Option WeatherData) (s : String) (d : ℕ)
    (t : String) :
    getCategory (generate_gear_recommendations w s d t) "Wildlife Protection"
      = if s = "spring" ∨ s = "summer" ∨ s = "fall" then wildlifeItems
        else [] := rfl

/-- Helper: the cold weather sample averages to -5 °C over 3 days. -/
theorem avgMin_coldWeatherExample :
    avgMinTemp (some coldWeatherExample) 3 = -5 := by
  norm_num [avgMinTemp, coldWeatherExample]
  exact List.cons_ne_nil _ _

/-- C1: for every totalDistanceKm ≥ 0 and integer tripDays ≥ 1, each day of
the itinerary has distance round(avgDaily + (-1)^day * avgDaily * 0.1, 1)
and estimated hours round(avgDaily / 3.5, 1), the hours value being the
same for every day; in particular buildItinerary(30, 3) yields distances
9.0, 11.0, 9.0 and estimated hours 2.9 on each day. -/
theorem itinerary_distance_hours_formula (total_distance : ℚ) (trip_days : ℕ)
    (trail_name : String) (waypoints : Option (List String))
    (h0 : 0 ≤ total_distance) (h1 : 1 ≤ trip_days) :
    (∀ dp ∈ create_daily_itinerary total_distance trip_days trail_name waypoints,
        dp.distance_km =
          pyRound1 (total_distance / (trip_days : ℚ) +
            (-1 : ℚ) ^ dp.day * (total_distance / (trip_days : ℚ)) * (1/10)) ∧
        dp.estimated_hours =
          pyRound1 ((total_distance / (trip_days : ℚ)) / (7/2))) ∧
    (create_daily_itinerary 30 3 "Trail" none).map (fun dp => dp.distance_km)
      = [9, 11, 9] ∧
    (create_daily_itinerary 30 3 "Trail" none).map (fun dp => dp.estimated_hours)
      = [29/10, 29/10, 29/10] := by
  refine ⟨?_, ?_, ?_⟩
  · intro dp hdp
    simp only [create_daily_itinerary, List.mem_map, List.mem_range] at hdp
    obtain ⟨i, _, rfl⟩ := hdp
    exact ⟨rfl, rfl⟩
  · norm_num [create_daily_itinerary, dayEntry, pyRound1, roundHalfEven,
      List.range_succ]
  · norm_num [create_daily_itinerary, dayEntry, pyRound1, roundHalfEven,
      List.range_succ]

/-- Witness for C1 at totalDistanceKm = 30, tripDays = 3. -/
theorem itinerary_distance_hours_formula_witness :
    (create_daily_itinerary 30 3 "Trail" none).map (fun dp => dp.distance_km)
      = [9, 11, 9] :=
  (itinerary_distance_hours_formula 30 3 "Trail" none (by norm_num)
    (by norm_num)).2.1

/-- C2: for every input, the Shelter & Sleep tier and the Clothing
insulation item follow the temperature band of avgMin (< 0 cold,
0 ≤ avgMin < 10 three-season, otherwise summer); in particular with
avgMin = -5 the Shelter & Sleep category is the 3 cold-tier items and the
Clothing category contains the down-jacket item. -/
theorem gear_temperature_bands (weather_data : Option WeatherData)
    (season : String) (trip_days : ℕ) (terrain : String)
    (h1 : 1 ≤ trip_days) :
    (getCategory (generate_gear_recommendations weather_data season trip_days
        terrain) "Shelter & Sleep" =
      if avgMinTemp weather_data trip_days < 0 then coldShelterItems
      else if avgMinTemp weather_data trip_days < 10 then
        threeSeasonShelterItems
      else summerShelterItems) ∧
    (getCategory (generate_gear_recommendations weather_data season trip_days
        terrain) "Clothing" =
      (if avgMinTemp weather_data trip_days < 0 then [downJacketItem]
       else if avgMinTemp weather_data trip_days < 10 then [synthJacketItem]
       else []) ++
      clothingBaseItems (totalPrecip weather_data trip_days) ++
      (if avgMinTemp weather_data trip_days < 5 then coldClothingItems
       else [])) ∧
    getCategory (generate_gear_recommendations (some coldWeatherExample)
        season 3 terrain) "Shelter & Sleep" = coldShelterItems ∧
    downJacketItem ∈
      getCategory (generate_gear_recommendations (some coldWeatherExample)
        season 3 terrain) "Clothing" := by
  refine ⟨rfl, rfl, ?_, ?_⟩
  · show (if avgMinTemp (some coldWeatherExample) 3 < 0 then coldShelterItems
          else if avgMinTemp (some coldWeatherExample) 3 < 10 then
            threeSeasonShelterItems
          else summerShelterItems) = coldShelterItems
    rw [avgMin_coldWeatherExample]
    norm_num
  · rw [getCategory_clothing, avgMin_coldWeatherExample]
    norm_num

/-- Witness for C2 at the -5 °C weather sample. -/
theorem gear_temperature_bands_witness :
    getCategory (generate_gear_recommendations (some coldWeatherExample)
      "summer" 3 "mixed") "Shelter & Sleep" = coldShelterItems :=
  (gear_temperature_bands (some coldWeatherExample) "summer" 3 "mixed"
    (by norm_num)).2.2.1

/-- C3: for every totalDistanceKm ≥ 0 and integer tripDays ≥ 1, the
itinerary has exactly tripDays entries whose day indices are
1, 2, ..., tripDays in order. -/
theorem itinerary_length_and_day_indices (total_distance : ℚ)
    (trip_days : ℕ) (trail_name : String) (waypoints : Option (List String))
    (h0 : 0 ≤ total_distance) (h1 : 1 ≤ trip_days) :
    (create_daily_itinerary total_distance trip_days trail_name
        waypoints).length = trip_days ∧
    (create_daily_itinerary total_distance trip_days trail_name
        waypoints).map (fun dp => dp.day) = List.range' 1 trip_days := by
  constructor
  · simp [create_daily_itinerary]
  · rw [List.range'_eq_map_range]
    simp [create_daily_itinerary, dayEntry, List.map_map, Function.comp,
      Nat.add_comm]

/-- Witness for C3 at totalDistanceKm = 30, tripDays = 3. -/
theorem itinerary_length_and_day_indices_witness :
    (create_daily_itinerary 30 3 "Trail" none).length = 3 ∧
    (create_daily_itinerary 30 3 "Trail" none).map (fun dp => dp.day)
      = List.range' 1 3 :=
  itinerary_length_and_day_indices 30 3 "Trail" none (by norm_num)
    (by norm_num)

/-- C4: absent weather does not fail but uses the defaults avgMin = 10,
avgMax = 20, totalPrecip = 0; for season summer, tripDays 3, terrain mixed
the rain-jacket wording is "recommended" and the fuel-canister quantity is
ceil(3/3) = 1. -/
theorem gear_absent_weather_defaults :
    avgMinTemp none 3 = 10 ∧ avgMaxTemp none 3 = 20 ∧
    totalPrecip none 3 = 0 ∧
    "Rain jacket (Gore-Tex, recommended)" ∈
      getCategory (generate_gear_recommendations none "summer" 3 "mixed")
        "Clothing" ∧
    "Fuel canisters (1 x 110g)" ∈
      getCategory (generate_gear_recommendations none "summer" 3 "mixed")
        "Cooking & Hydration" := by
  refine ⟨rfl, rfl, rfl, ?_, ?_⟩
  · rw [getCategory_clothing]
    norm_num [avgMinTemp, totalPrecip, clothingBaseItems]
    decide
  · rw [getCategory_cooking]
    norm_num [cookingItems]
    decide

/-- C5: the Wildlife Protection category is the fixed 4-item list exactly
when season is spring, summer or fall, and is empty for winter. -/
theorem gear_wildlife_iff_season (weather_data : Option WeatherData)
    (season : String) (trip_days : ℕ) (terrain : String)
    (h1 : 1 ≤ trip_days) :
    (getCategory (generate_gear_recommendations weather_data season trip_days
        terrain) "Wildlife Protection" =
      if season = "spring" ∨ season = "summer" ∨ season = "fall" then
        wildlifeItems
      else []) ∧
    getCategory (generate_gear_recommendations weather_data "winter"
        trip_days terrain) "Wildlife Protection" = [] :=
  ⟨rfl, rfl⟩

/-- Witness for C5 at season winter. -/
theorem gear_wildlife_iff_season_witness :
    getCategory (generate_gear_recommendations none "winter" 3 "mixed")
      "Wildlife Protection" = [] :=
  (gear_wildlife_iff_season none "winter" 3 "mixed" (by norm_num)).2

/-- C6: for every input the returned mapping contains exactly the six
category keys, in order, including categories whose item list is empty. -/
theorem gear_always_six_categories (weather_data : Option WeatherData)
    (season : String) (trip_days : ℕ) (terrain : String)
    (h1 : 1 ≤ trip_days) :
    (generate_gear_recommendations weather_data season trip_days
        terrain).map Prod.fst =
      ["Essential", "Clothing", "Shelter & Sleep", "Cooking & Hydration",
       "Navigation & Safety", "Wildlife Protection"] := rfl

/-- Witness for C6 at absent weather, season summer, tripDays 3. -/
theorem gear_always_six_categories_witness :
    (generate_gear_recommendations none "summer" 3 "mixed").map Prod.fst =
      ["Essential", "Clothing", "Shelter & Sleep", "Cooking & Hydration",
       "Navigation & Safety", "Wildlife Protection"] :=
  gear_always_six_categories none "summer" 3 "mixed" (by norm_num)

/-- C7 counterexample: at totalDistanceKm = 2.5, tripDays = 1, the single
day's distance is round(2.25, 1) = 2.2, not the exact value
0.9 * avgDaily = 2.25: the claimed exact equality fails. -/
theorem oneday_distance_not_exact_counterexample :
    (create_daily_itinerary (5/2) 1 "Trail" none).map
        (fun dp => dp.distance_km) ≠ [(9/10) * ((5/2 : ℚ) / 1)] := by
  have h1 : pyRound1 ((9:ℚ)/4) = 11/5 := by
    norm_num [pyRound1, roundHalfEven]
  have h2 : (create_daily_itinerary (5/2) 1 "Trail" none).map
      (fun dp => dp.distance_km) = [pyRound1 ((9:ℚ)/4)] := by
    simp only [create_daily_itinerary, dayEntry, List.range_succ,
      List.range_zero, List.nil_append, List.map_cons, List.map_nil]
    congr 2
    push_cast
    norm_num
  rw [h2, h1]
  norm_num

/-- C7 amended: for tripDays = 1 the single day's distance is
round(0.9 * avgDaily, 1 decimal) - the deviation sign is negative - and it
equals 0.9 * avgDaily exactly whenever 0.9 * avgDaily is a whole number of
tenths. -/
theorem oneday_distance_rounded (total_distance : ℚ)
    (h0 : 0 ≤ total_distance) :
    (create_daily_itinerary total_distance 1 "Trail" none).map
        (fun dp => dp.distance_km)
      = [pyRound1 ((9/10) * (total_distance / 1))] ∧
    (∀ k : ℤ, (9/10) * (total_distance / 1) = (k : ℚ) / 10 →
        pyRound1 ((9/10) * (total_distance / 1))
          = (9/10) * (total_distance / 1)) := by
  constructor
  · simp only [create_daily_itinerary, dayEntry, List.range_succ,
      List.range_zero, List.nil_append, List.map_cons, List.map_nil]
    congr 2
    push_cast
    ring
  · intro k hk
    rw [hk]
    have h10 : (10:ℚ) * ((k:ℚ)/10) = (k:ℚ) := by ring
    unfold pyRound1
    rw [h10, roundHalfEven_intCast]

/-- Witness for the amended C7 at totalDistanceKm = 30. -/
theorem oneday_distance_rounded_witness :
    (create_daily_itinerary 30 1 "Trail" none).map (fun dp => dp.distance_km)
      = [27] := by
  have h := oneday_distance_rounded 30 (by norm_num)
  rw [h.1, h.2 270 (by norm_num)]
  norm_num

/-- C8: for tripDays = 1 the single day's notes are exactly
["Start early to beat crowds"]: the day-1 branch takes precedence, so the
final-day note is suppressed. -/
theorem oneday_notes_start_early (total_distance : ℚ) (trail_name : String)
    (h0 : 0 ≤ total_distance) :
    (create_daily_itinerary total_distance 1 trail_name none).map
      (fun dp => dp.notes) = [["Start early to beat crowds"]] := rfl

/-- Witness for C8 at totalDistanceKm = 30. -/
theorem oneday_notes_start_early_witness :
    (create_daily_itinerary 30 1 "Trail" none).map (fun dp => dp.notes)
      = [["Start early to beat crowds"]] :=
  oneday_notes_start_early 30 "Trail" (by norm_num)

/-- C9: for every entry of an itinerary built without waypoints, the
campsite label is "Campsite {day}" and the water-source note is
"Stream/Spring available" on even days and "Carry water" on odd days. -/
theorem itinerary_campsite_water (total_distance : ℚ) (trip_days : ℕ)
    (trail_name : String) (h1 : 1 ≤ trip_days) (dp : DayData)
    (hdp : dp ∈ create_daily_itinerary total_distance trip_days trail_name
      none) :
    dp.campsite = "Campsite " ++ toString dp.day ∧
    dp.water_sources =
      if dp.day % 2 = 0 then "Stream/Spring available"
      else "Carry water" := by
  simp only [create_daily_itinerary, List.mem_map, List.mem_range] at hdp
  obtain ⟨i, _, rfl⟩ := hdp
  exact ⟨rfl, rfl⟩

/-- Witness for C9 at the day-2 entry of buildItinerary(30, 3). -/
theorem itinerary_campsite_water_witness :
    (dayEntry 10 3 none 2).campsite = "Campsite 2" ∧
    (dayEntry 10 3 none 2).water_sources = "Stream/Spring available" := by
  have h := itinerary_campsite_water 30 3 "Trail" (by norm_num)
    (dayEntry 10 3 none 2)
    (by norm_num [create_daily_itinerary, List.range_succ])
  exact ⟨h.1.trans (by decide), h.2.trans (by decide)⟩

/-- C10: both functions are deterministic - two calls on identical inputs
return identical outputs. -/
theorem functions_deterministic
    (w w' : Option WeatherData) (s s' : String) (d d' : ℕ) (t t' : String)
    (td td' : ℚ) (n n' : ℕ) (tr tr' : String)
    (wp wp' : Option (List String))
    (hw : w = w') (hs : s = s') (hd : d = d') (ht : t = t')
    (htd : td = td') (hn : n = n') (htr : tr = tr') (hwp : wp = wp') :
    generate_gear_recommendations w s d t
      = generate_gear_recommendations w' s' d' t' ∧
    create_daily_itinerary td n tr wp
      = create_daily_itinerary td' n' tr' wp' := by
  subst hw; subst hs; subst hd; subst ht
  subst htd; subst hn; subst htr; subst hwp
  exact ⟨rfl, rfl⟩

/-- Witness for C10 at a concrete pair of identical calls. -/
theorem functions_deterministic_witness :
    generate_gear_recommendations none "summer" 3 "mixed"
      = generate_gear_recommendations none "summer" 3 "mixed" ∧
    create_daily_itinerary 30 3 "Trail" none
      = create_daily_itinerary 30 3 "Trail" none :=
  functions_deterministic none none "summer" "summer" 3 3 "mixed" "mixed"
    30 30 3 3 "Trail" "Trail" none none rfl rfl rfl rfl rfl rfl rfl rfl
